import Mathlib

/-!
Verification of the orchestration core of the `react-login-demo` repository:
the popup/modal queue manager (`src/contexts/PopupModalManagerContext.tsx`),
the profile-setup wizard step state (`src/contexts/ProfileSetupWizardContext.ts`
and `src/routes/ProfileSetupProfilePicture.tsx`), the route guards
(`IndexPage`, `SignInPage`, `SignUpPage`), and the error mapping of the
profile/auth service layer (`src/services/profile.ts`, `AuthSignUpForm`).

Each TypeScript function relevant to a claim is shallowly embedded as a Lean
function; React `useState` update batching is made explicit where a claim
depends on it.
-/

/-- A modal descriptor as managed by the popup modal queue manager.
The manager only ever inspects `id`; `type` and `props` are the payload
selecting the modal variant and its data. -/
structure Modal where
  id : String
  type : String
  props : String
deriving DecidableEq, Repr

/-- Embedding of `queueModal`'s queue mutation
(`src/contexts/PopupModalManagerContext.tsx`):
`setModals(modals => modals.toSpliced(1, 0, newModal))`.
JS `toSpliced(start, 0, item)` with `start = 1` produces
`modals[0:min(1,len)] ++ [item] ++ modals[min(1,len):]`, i.e. insertion at
index 1 clamped to the array length. -/
def queueModal (modals : List Modal) (newModal : Modal) : List Modal :=
  modals.take 1 ++ newModal :: modals.drop 1

/-- Embedding of the id defaulting in `queueModal`:
`{ ...modal, id: modal.id ?? uuidv4() }` — a caller-supplied id wins over the
freshly generated one. -/
def resolveModalId (callerId : Option String) (freshUuid : String) : String :=
  callerId.getD freshUuid

/-- Embedding of `hideModal`'s queue mutation:
`modals.filter(modal => modal.id !== id)`. -/
def hideModal (modals : List Modal) (id : String) : List Modal :=
  modals.filter (fun modal => modal.id != id)

/-- Embedding of `getModals`: `[...modals]` returns a (shallow copy of) the
current queue. -/
def getModals (modals : List Modal) : List Modal :=
  modals

/-- Embedding of `clearModals`: `setModals([])`. -/
def clearModals : List Modal :=
  []

/-- `queueModal` grows the queue by exactly one element. -/
lemma queueModal_length (q : List Modal) (m : Modal) :
    (queueModal q m).length = q.length + 1 := by
  cases q <;> simp [queueModal]

/-- `queueModal` never replaces the head of a non-empty queue. -/
lemma queueModal_head (q : List Modal) (m : Modal) (h : q ≠ []) :
    (queueModal q m).head? = q.head? := by
  cases q with
  | nil => exact absurd rfl h
  | cons a t => rfl

/-- The queue produced by `queueModal` is never empty. -/
lemma queueModal_ne_nil (q : List Modal) (m : Modal) :
    queueModal q m ≠ [] := by
  cases q <;> simp [queueModal]

/-- Claim C1: `queueModal` inserts the new descriptor at index 1 of the
queue: on an empty queue the new descriptor becomes the head (index 0,
immediately active); on a one-element queue it becomes the second element;
`[A, B, C]` plus `D` yields `[A, D, B, C]`; and the descriptor at index 0 of
a non-empty queue is never replaced by the insertion. -/
theorem queueModal_inserts_at_index_one (q : List Modal) (m : Modal) :
    queueModal [] m = [m]
    ∧ (∀ a : Modal, queueModal [a] m = [a, m])
    ∧ (∀ A B C : Modal, queueModal [A, B, C] m = [A, m, B, C])
    ∧ (q ≠ [] → (queueModal q m).head? = q.head?) := by
  refine ⟨rfl, fun a => rfl, fun A B C => rfl, fun h => queueModal_head q m h⟩

/-- Witness for C1 at a concrete non-empty queue. -/
theorem queueModal_inserts_at_index_one_witness :
    ([Modal.mk "a" "alert" ""] : List Modal) ≠ []
    ∧ (queueModal [Modal.mk "a" "alert" ""] (Modal.mk "b" "alert" "")).head?
        = some (Modal.mk "a" "alert" "") :=
  ⟨by decide,
   (queueModal_inserts_at_index_one [Modal.mk "a" "alert" ""]
      (Modal.mk "b" "alert" "")).2.2.2 (by decide)⟩

/-- Removing by id leaves the count of non-matching elements and drops all
matching ones: `(hideModal q i).length + (number of elements with id i) =
q.length`. -/
lemma hideModal_length_add_count (q : List Modal) (i : String) :
    (hideModal q i).length + q.countP (fun m => m.id == i) = q.length := by
  induction q with
  | nil => rfl
  | cons a t ih =>
    by_cases h : a.id = i
    · simp [hideModal, List.filter_cons, List.countP_cons, h] at *
      omega
    · simp [hideModal, List.filter_cons, List.countP_cons, h, bne_iff_ne] at *
      omega

/-- Counterexample to claim C4 as stated: on the queue
`[{id := "a"}, {id := "a"}]` (two descriptors sharing an id, which
`queueModal` never prevents), `hideModal "a"` removes both elements, so the
length does not decrease by exactly one. -/
theorem hideModal_duplicate_id_counterexample :
    (hideModal [Modal.mk "a" "alert" "", Modal.mk "a" "alert" ""] "a").length
      ≠ ([Modal.mk "a" "alert" "", Modal.mk "a" "alert" ""] : List Modal).length - 1 := by
  decide

/-- Claim C4 (amended): `hideModal q i` removes every descriptor whose id is
`i` and keeps every other descriptor, preserving their relative order (the
result is a sublist of `q`); when exactly one descriptor of `q` carries id
`i` the length decreases by exactly one, and when none does the queue is
returned unchanged. -/
theorem hideModal_removes_matching_id (q : List Modal) (i : String) :
    (hideModal q i).Sublist q
    ∧ (∀ m ∈ hideModal q i, m.id ≠ i)
    ∧ (∀ m ∈ q, m.id ≠ i → m ∈ hideModal q i)
    ∧ (q.countP (fun m => m.id == i) = 1 → (hideModal q i).length + 1 = q.length)
    ∧ ((∀ m ∈ q, m.id ≠ i) → hideModal q i = q) := by
  refine ⟨List.filter_sublist q, ?_, ?_, ?_, ?_⟩
  · intro m hm
    have := (List.mem_filter.mp hm).2
    simpa [bne_iff_ne] using this
  · intro m hm hne
    exact List.mem_filter.mpr ⟨hm, by simpa [bne_iff_ne] using hne⟩
  · intro h1
    have := hideModal_length_add_count q i
    omega
  · intro hall
    apply List.filter_eq_self.mpr
    intro m hm
    simpa [bne_iff_ne] using hall m hm

/-- Witness for C4 (amended) at a concrete queue: removing a present
(unique) id shrinks the queue by one, removing an absent id leaves the
queue unchanged. -/
theorem hideModal_removes_matching_id_witness :
    (hideModal [Modal.mk "a" "alert" "", Modal.mk "b" "alert" ""] "b").length + 1
        = ([Modal.mk "a" "alert" "", Modal.mk "b" "alert" ""] : List Modal).length
    ∧ hideModal [Modal.mk "a" "alert" "", Modal.mk "b" "alert" ""] "zzz"
        = [Modal.mk "a" "alert" "", Modal.mk "b" "alert" ""] :=
  ⟨(hideModal_removes_matching_id
      [Modal.mk "a" "alert" "", Modal.mk "b" "alert" ""] "b").2.2.2.1 (by decide),
   (hideModal_removes_matching_id
      [Modal.mk "a" "alert" "", Modal.mk "b" "alert" ""] "zzz").2.2.2.2 (by decide)⟩

/-- Folding `queueModal` over a list of descriptors grows the queue by the
number of descriptors. -/
lemma foldl_queueModal_length (ms : List Modal) (q : List Modal) :
    (ms.foldl queueModal q).length = q.length + ms.length := by
  induction ms generalizing q with
  | nil => rfl
  | cons m t ih =>
    simp [List.foldl_cons, ih, queueModal_length]
    omega

/-- Folding `queueModal` over further descriptors never changes the head of
an already non-empty queue. -/
lemma foldl_queueModal_head (ms : List Modal) (q : List Modal) (h : q ≠ []) :
    (ms.foldl queueModal q).head? = q.head? := by
  induction ms generalizing q with
  | nil => rfl
  | cons m t ih =>
    rw [List.foldl_cons, ih (queueModal q m) (queueModal_ne_nil q m)]
    exact queueModal_head q m h

/-- Claim C5: starting from the empty queue, for every sequence of
`queueModal` calls with pairwise-distinct ids, after the `n`-th call the
queue has length `n`, and from the first call on the element at index 0 is
the first descriptor queued — no subsequent `queueModal` call changes it. -/
theorem queueModal_sequence_length_and_head (ms : List Modal)
    (h : (ms.map Modal.id).Nodup) :
    (∀ n, n ≤ ms.length → ((ms.take n).foldl queueModal []).length = n)
    ∧ (∀ n, 1 ≤ n → n ≤ ms.length →
        ((ms.take n).foldl queueModal []).head? = ms.head?) := by
  constructor
  · intro n hn
    rw [foldl_queueModal_length]
    simp [Nat.min_eq_left hn]
  · intro n h1 hn
    cases ms with
    | nil => simp at hn; omega
    | cons m t =>
      cases n with
      | zero => omega
      | succ k =>
        rw [List.take_succ_cons, List.foldl_cons]
        rw [foldl_queueModal_head (t.take k) (queueModal [] m) (queueModal_ne_nil [] m)]
        rfl

/-- Witness for C5 at a concrete three-element sequence with distinct ids. -/
theorem queueModal_sequence_length_and_head_witness :
    (([Modal.mk "a" "alert" "", Modal.mk "b" "alert" "", Modal.mk "c" "alert" ""].take 3).foldl
        queueModal []).length = 3
    ∧ (([Modal.mk "a" "alert" "", Modal.mk "b" "alert" "", Modal.mk "c" "alert" ""].take 3).foldl
        queueModal []).head? = some (Modal.mk "a" "alert" "") :=
  ⟨(queueModal_sequence_length_and_head
      [Modal.mk "a" "alert" "", Modal.mk "b" "alert" "", Modal.mk "c" "alert" ""]
      (by decide)).1 3 (by decide),
   (queueModal_sequence_length_and_head
      [Modal.mk "a" "alert" "", Modal.mk "b" "alert" "", Modal.mk "c" "alert" ""]
      (by decide)).2 3 (by decide) (by decide)⟩

/-!
React `useState` update semantics, needed for claim C3.

Within one render pass the component closes over the state snapshot
(`modals`). Each `setModals(...)` call enqueues an update: either a
replacement value, or an updater function. React commits the next state by
folding the queued updates over the committed state: an updater function is
applied to the accumulated pending state, while a replacement value
discards the accumulated pending state.

`queueModal` enqueues an updater function
(`setModals(modals => modals.toSpliced(1, 0, newModal))`), but `hideModal`
enqueues a replacement value computed from the render snapshot
(`setModals(modals.filter(modal => modal.id !== id))`), and `clearModals`
enqueues the replacement value `[]`.
-/

/-- One queued `setState` update: a replacement value or an updater
function. -/
inductive ReactUpdate where
  | replaceWith (v : List Modal)
  | updater (f : List Modal → List Modal)

/-- How React applies one queued update to the accumulated pending state. -/
def applyUpdate (pending : List Modal) : ReactUpdate → List Modal
  | .replaceWith v => v
  | .updater f => f pending

/-- The state committed for the next render: the queued updates folded over
the previously committed state. -/
def commitUpdates (committed : List Modal) (updates : List ReactUpdate) : List Modal :=
  updates.foldl applyUpdate committed

/-- The update enqueued by a `queueModal` call: a functional update, applied
to the accumulated pending state. -/
def queueModalCall (newModal : Modal) : ReactUpdate :=
  .updater (fun modals => queueModal modals newModal)

/-- The update enqueued by a `hideModal` call: a replacement value computed
from the render snapshot `modals` (the closed-over state variable), not
from the accumulated pending state. -/
def hideModalCall (snapshot : List Modal) (id : String) : ReactUpdate :=
  .replaceWith (hideModal snapshot id)

/-- The update enqueued by a `clearModals` call. -/
def clearModalsCall : ReactUpdate :=
  .replaceWith []

/-- Claim C3 fails on the code: starting from the committed queue `[]`,
calling `queueModal m` and then `hideModal "other"` (with `"other"` distinct
from `m`'s id) within the same render pass commits the empty queue — the
replacement value computed by `hideModal` from the stale snapshot discards
the descriptor just queued, so `m` is not in the resulting queue. -/
theorem hideModal_stale_snapshot_drops_queued_modal :
    commitUpdates []
        [queueModalCall (Modal.mk "m1" "alert" ""), hideModalCall [] "other"] = []
    ∧ (Modal.mk "m1" "alert" "").id ≠ "other"
    ∧ (Modal.mk "m1" "alert" "") ∉
        commitUpdates []
          [queueModalCall (Modal.mk "m1" "alert" ""), hideModalCall [] "other"] := by
  refine ⟨rfl, by decide, by intro h; simp [commitUpdates, applyUpdate,
    hideModalCall, hideModal, queueModalCall] at h⟩

/-!
Profile-setup wizard step state.

`src/contexts/ProfileSetupWizardContext.ts` declares the closed step
enumeration for the profile-setup flow and the wizard context; the
`IWizardController` implementation behind the context is not among the
sources, only its interface import and its callers.
-/

/-- The declared step enumeration of the profile-setup flow
(`export enum ProfileSetupStep`): exactly the members `STEP_USERNAME` and
`STEP_PROFILE_PICTURE`. -/
inductive ProfileSetupStep where
  | STEP_USERNAME
  | STEP_PROFILE_PICTURE
deriving DecidableEq, Repr

/-- The keys declared by the TS `enum ProfileSetupStep` (a TS string enum is
an object mapping each declared key to its string value). -/
def profileSetupStepKeys : List String :=
  ["STEP_USERNAME", "STEP_PROFILE_PICTURE"]

/-- JS member access on the enum object: a declared key yields its string
value, an undeclared key yields `undefined` (modelled as `none`). -/
def profileSetupStepMember (key : String) : Option String :=
  if key ∈ profileSetupStepKeys then some key else none

/-- The argument of the profile-picture step's skip/continue transition
(`src/routes/ProfileSetupProfilePicture.tsx`, `goToNextStep`):
`wizardController?.setCurrentStep?.(ProfileSetupStep.STEP_COMPLETE)`. -/
def goToNextStepArg : Option String :=
  profileSetupStepMember "STEP_COMPLETE"

/-- Claim C2 fails on the code: `goToNextStep` passes
`ProfileSetupStep.STEP_COMPLETE` to `setCurrentStep`, but `STEP_COMPLETE` is
not among the declared members of the enumeration, so the value passed is
`undefined` — not a declared member of the step set. -/
theorem goToNextStep_passes_undeclared_step :
    "STEP_COMPLETE" ∉ profileSetupStepKeys
    ∧ goToNextStepArg = none
    ∧ ∀ s ∈ profileSetupStepKeys, goToNextStepArg ≠ some s := by
  refine ⟨by decide, rfl, by decide⟩

/-- Modelled from the spec: the `IWizardController` implementation provided
through `WizardContext` is not among the sources (only the interface import
in `src/contexts/ProfileSetupWizardContext.ts` and its callers are). Per the
spec, `setCurrentStep(step)` "sets the step to exactly the given value",
with "no implicit validation that the new step is forward of the old one". -/
def setCurrentStep (step : ProfileSetupStep) (_currentStep : ProfileSetupStep) :
    ProfileSetupStep :=
  step

/-- Claim C6: for every declared step `X` and every current step,
`setCurrentStep X` makes the current step exactly `X` — no forward-only
validation, so any declared step is reachable directly from any other. -/
theorem setCurrentStep_reaches_every_step (X old : ProfileSetupStep) :
    setCurrentStep X old = X
    ∧ (∀ other : ProfileSetupStep, setCurrentStep X other = setCurrentStep X old) :=
  ⟨rfl, fun _ => rfl⟩

/-!
Route guards.

`IndexPage` (gated page): `if (!user) navigate('/signin', { replace: true })`.
`SignInPage` / `SignUpPage` (auth entry points):
`if (activeUser) navigate('/', { replace: true })`.
-/

/-- The session user record (`{ id, username?, avatarSrc? }`); a session
with no user is modelled as `none`. -/
structure SessionUser where
  id : String
  username : Option String
  avatarSrc : Option String
deriving DecidableEq, Repr

/-- A forced navigation: target route and whether the current history entry
is replaced. -/
structure NavAction where
  target : String
  replaceHistoryEntry : Bool
deriving DecidableEq, Repr

/-- Embedding of the `IndexPage` guard effect:
`if (!user) navigate('/signin', { replace: true })`. -/
def indexPageGuard (user : Option SessionUser) : Option NavAction :=
  if user.isNone then some ⟨"/signin", true⟩ else none

/-- Embedding of the `SignInPage` guard effect:
`if (activeUser) navigate('/', { replace: true })`. -/
def signInPageGuard (activeUser : Option SessionUser) : Option NavAction :=
  if activeUser.isSome then some ⟨"/", true⟩ else none

/-- Embedding of the `SignUpPage` guard effect:
`if (activeUser) navigate('/', { replace: true })`. -/
def signUpPageGuard (activeUser : Option SessionUser) : Option NavAction :=
  if activeUser.isSome then some ⟨"/", true⟩ else none

/-- Claim C7: with no user, the gated page forces navigation to the sign-in
route replacing the history entry; with a user present, the sign-in and
sign-up entry points redirect to the home route replacing the history
entry (and the gated page does not redirect). -/
theorem route_guards_redirect (user : Option SessionUser) :
    (user = none →
        indexPageGuard user = some ⟨"/signin", true⟩
        ∧ signInPageGuard user = none
        ∧ signUpPageGuard user = none)
    ∧ (user ≠ none →
        indexPageGuard user = none
        ∧ signInPageGuard user = some ⟨"/", true⟩
        ∧ signUpPageGuard user = some ⟨"/", true⟩) := by
  constructor
  · rintro rfl
    exact ⟨rfl, rfl, rfl⟩
  · intro h
    cases user with
    | none => exact absurd rfl h
    | some u => exact ⟨rfl, rfl, rfl⟩

/-- Witness for C7 at both a signed-out and a signed-in session. -/
theorem route_guards_redirect_witness :
    (indexPageGuard none = some ⟨"/signin", true⟩
      ∧ signInPageGuard none = none
      ∧ signUpPageGuard none = none)
    ∧ (indexPageGuard (some ⟨"1234", none, none⟩) = none
      ∧ signInPageGuard (some ⟨"1234", none, none⟩) = some ⟨"/", true⟩
      ∧ signUpPageGuard (some ⟨"1234", none, none⟩) = some ⟨"/", true⟩) :=
  ⟨(route_guards_redirect none).1 rfl,
   (route_guards_redirect (some ⟨"1234", none, none⟩)).2 (by decide)⟩

/-!
Service error codes and error normalization.

`src/services/profile.ts` defines `ERR_UNEXPECTED_ERROR` and
`ERR_USERNAME_TAKEN` (each code's value is its own name);
`ERR_SIGNUP_REJECTED` is imported from `@/services/auth.ts` and only ever
compared for equality, so its value is modelled as its name as well.
-/

/-- Error code `ERR_UNEXPECTED_ERROR` (`src/services/profile.ts`). -/
def ERR_UNEXPECTED_ERROR : String := "ERR_UNEXPECTED_ERROR"

/-- Error code `ERR_USERNAME_TAKEN` (`src/services/profile.ts`). -/
def ERR_USERNAME_TAKEN : String := "ERR_USERNAME_TAKEN"

/-- Error code `ERR_SIGNUP_REJECTED` (`@/services/auth.ts`). -/
def ERR_SIGNUP_REJECTED : String := "ERR_SIGNUP_REJECTED"

/-- The body of a username-claim response, as cast by
`await response.json() as ClaimUsernameResponse`. -/
inductive ClaimUsernameResponse where
  | success (id : String) (username : String)
  | failure
deriving DecidableEq, Repr

/-- Embedding of `setUsername` (`src/services/profile.ts`) as a function of
the HTTP response: per the Fetch standard, `response.ok` holds exactly when
the status is in 200–299; on a non-ok response the function throws
`ERR_USERNAME_TAKEN` for status 409 and `ERR_UNEXPECTED_ERROR` otherwise; on
an ok response it returns the parsed body. -/
def setUsername (status : Nat) (body : ClaimUsernameResponse) :
    Except String ClaimUsernameResponse :=
  if ¬(200 ≤ status ∧ status ≤ 299) then
    if status = 409 then Except.error ERR_USERNAME_TAKEN
    else Except.error ERR_UNEXPECTED_ERROR
  else Except.ok body

/-- The sign-up service response
(`{success: true, data: {id}} | {success: false, message?}`). -/
inductive SignUpResponse where
  | success (id : String)
  | failure (message : Option String)
deriving DecidableEq, Repr

/-- What the sign-up form reports after handling the `createUser` outcome:
either the success callback with the new user id, or an error message shown
to the user. -/
inductive SignUpHandlerResult where
  | succeeded (id : String)
  | errorShown (message : String)
deriving DecidableEq, Repr

/-- Message `MSG_ERR_GENERIC` (`AuthSignUpForm`). -/
def MSG_ERR_GENERIC : String := "Unable to create account. Please try again later"

/-- Message `MSG_ERR_REJECTED` (`AuthSignUpForm`). -/
def MSG_ERR_REJECTED : String := "This email and password combination cannot be used"

/-- Embedding of the `.then` callback on `createUser` in
`formSignUpSubmitHandler`: a `success: true` response resolves with the new
user id; any other response shape throws `ERR_UNEXPECTED_ERROR`
(the "Malformed response?" branch). -/
def signUpThen : SignUpResponse → Except String String
  | .success id => Except.ok id
  | .failure _ => Except.error ERR_UNEXPECTED_ERROR

/-- Embedding of the `.catch` callback in `formSignUpSubmitHandler`: a
thrown error whose message is `ERR_SIGNUP_REJECTED` shows
`MSG_ERR_REJECTED`; every other thrown error shows `MSG_ERR_GENERIC`. -/
def signUpCatch (message : String) : SignUpHandlerResult :=
  if message = ERR_SIGNUP_REJECTED then .errorShown MSG_ERR_REJECTED
  else .errorShown MSG_ERR_GENERIC

/-- The promise chain of `formSignUpSubmitHandler` applied to the outcome of
`createUser` (which resolves with a response or rejects with a thrown error
message). -/
def formSignUpResponseHandler (outcome : Except String SignUpResponse) :
    SignUpHandlerResult :=
  match Except.bind outcome signUpThen with
  | .ok id => .succeeded id
  | .error message => signUpCatch message

/-- Claim C8: `setUsername` throws `ERR_USERNAME_TAKEN` exactly when the
response status is 409 and `ERR_UNEXPECTED_ERROR` for every other non-ok
response; every error it throws is one of the fixed codes; and the sign-up
handler normalizes every malformed response (`success: false` shape) and
every thrown error other than `ERR_SIGNUP_REJECTED` to the single generic
message before showing it to the user. -/
theorem service_errors_use_fixed_codes (status : Nat)
    (body : ClaimUsernameResponse) (message : String) (r : Option String)
    (id : String) :
    (setUsername status body = Except.error ERR_USERNAME_TAKEN ↔ status = 409)
    ∧ (¬(200 ≤ status ∧ status ≤ 299) → status ≠ 409 →
        setUsername status body = Except.error ERR_UNEXPECTED_ERROR)
    ∧ ((200 ≤ status ∧ status ≤ 299) → setUsername status body = Except.ok body)
    ∧ (∀ e, setUsername status body = Except.error e →
        e = ERR_USERNAME_TAKEN ∨ e = ERR_UNEXPECTED_ERROR)
    ∧ formSignUpResponseHandler (Except.ok (SignUpResponse.success id))
        = .succeeded id
    ∧ formSignUpResponseHandler (Except.ok (SignUpResponse.failure r))
        = .errorShown MSG_ERR_GENERIC
    ∧ formSignUpResponseHandler (Except.error ERR_SIGNUP_REJECTED)
        = .errorShown MSG_ERR_REJECTED
    ∧ (message ≠ ERR_SIGNUP_REJECTED →
        formSignUpResponseHandler (Except.error message)
          = .errorShown MSG_ERR_GENERIC) := by
  refine ⟨?_, ?_, ?_, ?_, rfl, ?_, ?_, ?_⟩
  · constructor
    · intro h
      by_cases hok : 200 ≤ status ∧ status ≤ 299
      · simp [setUsername, hok] at h
      · by_cases h409 : status = 409
        · exact h409
        · simp [setUsername, hok, h409, ERR_UNEXPECTED_ERROR, ERR_USERNAME_TAKEN] at h
    · rintro rfl
      simp [setUsername]
  · intro hok h409
    simp [setUsername, hok, h409]
  · intro hok
    simp [setUsername, hok]
  · intro e he
    by_cases hok : 200 ≤ status ∧ status ≤ 299
    · simp [setUsername, hok] at he
    · by_cases h409 : status = 409
      · simp [setUsername, hok, h409] at he
        exact Or.inl he.symm
      · simp [setUsername, hok, h409] at he
        exact Or.inr he.symm
  · show signUpCatch ERR_UNEXPECTED_ERROR = .errorShown MSG_ERR_GENERIC
    simp [signUpCatch, ERR_UNEXPECTED_ERROR, ERR_SIGNUP_REJECTED]
  · show signUpCatch ERR_SIGNUP_REJECTED = .errorShown MSG_ERR_REJECTED
    simp [signUpCatch]
  · intro hne
    show signUpCatch message = .errorShown MSG_ERR_GENERIC
    simp [signUpCatch, hne]

/-- Witness for C8 at concrete statuses 409, 500 and 200 and a concrete
non-rejected error message. -/
theorem service_errors_use_fixed_codes_witness :
    setUsername 409 ClaimUsernameResponse.failure = Except.error ERR_USERNAME_TAKEN
    ∧ setUsername 500 ClaimUsernameResponse.failure = Except.error ERR_UNEXPECTED_ERROR
    ∧ setUsername 200 ClaimUsernameResponse.failure = Except.ok ClaimUsernameResponse.failure
    ∧ formSignUpResponseHandler (Except.error "boom") = .errorShown MSG_ERR_GENERIC :=
  ⟨(service_errors_use_fixed_codes 409 ClaimUsernameResponse.failure "boom" none "1").1.mpr rfl,
   (service_errors_use_fixed_codes 500 ClaimUsernameResponse.failure "boom" none "1").2.1
      (by omega) (by omega),
   (service_errors_use_fixed_codes 200 ClaimUsernameResponse.failure "boom" none "1").2.2.1
      (by omega),
   (service_errors_use_fixed_codes 200 ClaimUsernameResponse.failure "boom" none "1").2.2.2.2.2.2.2
      (by decide)⟩

/-!
Profile-picture submission (`handleSubmitResponse` in
`src/routes/ProfileSetupProfilePicture.tsx`) and the untrimmed-password
gate of the sign-up form (`formSignUpSubmitHandler` in `AuthSignUpForm`).
-/

/-- What `handleSubmitResponse` does: throw, or call
`setProfilePicture({ profileId, image })`. The image blob is modelled as
its byte string. -/
inductive SubmitResponseOutcome where
  | threw (message : String)
  | serviceCalled (profileId : String) (image : String)
deriving DecidableEq, Repr

/-- Embedding of `handleSubmitResponse`: after setting the loading flag and
installing the request mock, it throws `'No image data to submit'` when
`croppedImage.current` is unset, and otherwise calls
`setProfilePicture({ profileId: '1234', image: croppedImage.current })`. -/
def handleSubmitResponse (croppedImage : Option String) : SubmitResponseOutcome :=
  match croppedImage with
  | none => .threw "No image data to submit"
  | some image => .serviceCalled "1234" image

/-- Claim C9: the profile-picture submit operation throws
`'No image data to submit'` exactly when no cropped image blob is stored,
and with a cropped image present it proceeds to the service call without
throwing. -/
theorem submit_requires_cropped_image (croppedImage : Option String) :
    (handleSubmitResponse croppedImage = .threw "No image data to submit"
        ↔ croppedImage = none)
    ∧ (∀ b : String, handleSubmitResponse (some b) = .serviceCalled "1234" b) := by
  constructor
  · constructor
    · intro h
      cases croppedImage with
      | none => rfl
      | some b => simp [handleSubmitResponse] at h
    · rintro rfl
      rfl
  · intro b
    rfl

/-- Witness for C9 with and without a stored cropped image. -/
theorem submit_requires_cropped_image_witness :
    handleSubmitResponse none = .threw "No image data to submit"
    ∧ handleSubmitResponse (some "img") = .serviceCalled "1234" "img" :=
  ⟨(submit_requires_cropped_image none).1.mpr rfl,
   (submit_requires_cropped_image (some "img")).2 "img"⟩

/-- What a call of the sign-up submit handler does before any service call:
either it only raises the one-time untrimmed-password warning via the
`onError` callback, or it proceeds (`onSubmit` then `createUser`). -/
inductive SubmitAction where
  | warnedOnly (warning : String)
  | proceeded
deriving DecidableEq, Repr

/-- The warning raised once for a password with leading or trailing
spaces. -/
def untrimmedPasswordWarning : String :=
  "Your password may contain leading or trailing spaces\nResubmit if you're certain you want to proceed"

/-- JS `String.prototype.trim()`: removes leading and trailing whitespace.
The password is modelled as its character list. -/
def jsTrim (s : List Char) : List Char :=
  ((s.dropWhile Char.isWhitespace).reverse.dropWhile Char.isWhitespace).reverse

/-- Embedding of the untrimmed-password gate at the top of
`formSignUpSubmitHandler`: given the `userWarnedUntrimmedPassword` flag and
the submitted password, returns the new flag and whether the call warned
and returned early or proceeded to `onSubmit`/`createUser`. -/
def formSignUpSubmitHandler (userWarnedUntrimmedPassword : Bool)
    (password : List Char) : Bool × SubmitAction :=
  if userWarnedUntrimmedPassword = false ∧ password ≠ jsTrim password then
    (true, .warnedOnly untrimmedPasswordWarning)
  else
    (userWarnedUntrimmedPassword, .proceeded)

/-- Claim C10: for a password with leading or trailing whitespace, the first
submission only raises the one-time warning (no `onSubmit`, no service
call) and sets the warned flag; once the flag is set, a submission with the
same untrimmed password proceeds. -/
theorem untrimmed_password_warns_once (password : List Char)
    (h : password ≠ jsTrim password) :
    formSignUpSubmitHandler false password
        = (true, .warnedOnly untrimmedPasswordWarning)
    ∧ formSignUpSubmitHandler true password = (true, .proceeded) := by
  constructor
  · simp [formSignUpSubmitHandler, h]
  · simp [formSignUpSubmitHandler]

/-- Witness for C10 at the concrete untrimmed password `" pw"`. -/
theorem untrimmed_password_warns_once_witness :
    formSignUpSubmitHandler false [' ', 'p', 'w']
        = (true, .warnedOnly untrimmedPasswordWarning)
    ∧ formSignUpSubmitHandler true [' ', 'p', 'w'] = (true, .proceeded) :=
  untrimmed_password_warns_once [' ', 'p', 'w'] (by decide)
